import Mathlib

/-!
Shallow embedding of `src/extractor.py` (session-token-extractor).

Python dicts preserve insertion order, so every dict in the program is
modelled as an insertion-ordered association list `List (String × α)`;
`setKey` models `d[k] = v` (replace in place if the key exists, else append)
and `getKey` models `d[k]` / `d.get(k)` lookup.  A dict that may lack a
key altogether (the snapshot returned by `_extract_all_tokens`, which is
consumed through `tokens.get(surface, dict())`) is modelled with `Option`
fields, `none` meaning the key is absent.
-/

/-- Python `d[k] = v` on an insertion-ordered dict: overwrite in place if
`k` is already a key, otherwise append at the end. -/
def setKey {α : Type} : List (String × α) → String → α → List (String × α)
  | [], k, v => [(k, v)]
  | (k', v') :: rest, k, v =>
    if k' = k then (k, v) :: rest else (k', v') :: setKey rest k v

/-- Python dict lookup `d.get(k)`: the value at the first (unique) matching
key, if any. -/
def getKey {α : Type} : List (String × α) → String → Option α
  | [], _ => none
  | (k', v) :: rest, k => if k' = k then some v else getKey rest k

/-- Python `s.lower()` on the characters of `s` (kept on `List Char` so the
kernel can evaluate it). -/
def lowerChars (s : String) : List Char := s.toList.map Char.toLower

/-- Whether `hay` starts with `pat` (character lists). -/
def listStartsWith : List Char → List Char → Bool
  | _, [] => true
  | [], _ => false
  | a :: as, b :: bs => a == b && listStartsWith as bs

/-- Python substring test `pat in hay` on character lists: some suffix of
`hay` starts with `pat` (the empty pattern is contained everywhere). -/
def listHasSub : List Char → List Char → Bool
  | [], pat => pat.isEmpty
  | a :: rest, pat => listStartsWith (a :: rest) pat || listHasSub rest pat

/-- One element of the list returned by Playwright `context.cookies()`:
`name`, `value`, `domain`, `path` are read with `cookie[...]` (always
present), the other three with `cookie.get(...)` (possibly absent, hence
`Option`).  Timestamps are modelled as integers. -/
structure BrowserCookie where
  name : String
  value : String
  domain : String
  path : String
  expires : Option Int
  httpOnly : Option Bool
  secure : Option Bool
deriving DecidableEq

/-- The per-cookie record `_extract_all_tokens` stores under
`tokens['cookies'][name]`. -/
structure CookieRecord where
  value : String
  domain : String
  path : String
  expires : Option Int
  httpOnly : Option Bool
  secure : Option Bool
deriving DecidableEq

/-- The record built from a `BrowserCookie` in the cookie loop of
`_extract_all_tokens`. -/
def cookieRecordOf (c : BrowserCookie) : CookieRecord :=
  ⟨c.value, c.domain, c.path, c.expires, c.httpOnly, c.secure⟩

/-- The `tokens` dict returned by `_extract_all_tokens` and consumed by
`find_session_token`.  Each field is a top-level key of the dict; `none`
models the key being absent from the dict (the consumer reads the first
three keys with `tokens.get(key, dict())`). -/
structure TokensDict where
  cookies : Option (List (String × CookieRecord))
  localStorage : Option (List (String × String))
  sessionStorage : Option (List (String × String))
  metaTags : Option (List (String × String))
  scriptVariables : Option (List (String × String))
deriving DecidableEq

/-- The environment `_extract_all_tokens` observes: the list returned by
`context.cookies()`, and the outcome of each of the four `page.evaluate`
calls — `some m` is the mapping returned by the in-page script, `none`
models the call raising (script execution denied, storage API throwing,
and so on). -/
structure PageEnv where
  contextCookies : List BrowserCookie
  localStorageEval : Option (List (String × String))
  sessionStorageEval : Option (List (String × String))
  metaTagsEval : Option (List (String × String))
  scriptVariablesEval : Option (List (String × String))
deriving DecidableEq

/-- The cookie dict built by the first loop of `_extract_all_tokens`:
sequential `tokens['cookies'][cookie['name']] = record` assignments. -/
def buildCookiesMap (cs : List BrowserCookie) : List (String × CookieRecord) :=
  cs.foldl (fun acc c => setKey acc c.name (cookieRecordOf c)) []

/-- `WebsiteLoginAutomation._extract_all_tokens` (extractor.py lines
101-175).  Cookies are stored unconditionally.  localStorage and
sessionStorage each sit in their own try/except whose handler stores an
empty dict.  Steps 4a (meta tags) and 4b (script variables) share a single
try block whose handler is `pass`: if the meta-tag evaluation raises,
neither `metaTags` nor `scriptVariables` is ever assigned; if only the
script-variable evaluation raises, `metaTags` was already assigned but
`scriptVariables` is not. -/
def _extract_all_tokens (p : PageEnv) : TokensDict :=
  let cookiesMap := buildCookiesMap p.contextCookies
  let ls := some (p.localStorageEval.getD [])
  let ss := some (p.sessionStorageEval.getD [])
  match p.metaTagsEval with
  | none => ⟨some cookiesMap, ls, ss, none, none⟩
  | some m =>
    match p.scriptVariablesEval with
    | none => ⟨some cookiesMap, ls, ss, some m, none⟩
    | some sv => ⟨some cookiesMap, ls, ss, some m, some sv⟩

/-- The fixed `session_names` fragment list of `find_session_token`
(extractor.py lines 188-192). -/
def session_names : List String :=
  ["session", "sessionid", "session_id", "sessiontoken", "session_token",
   "phpsessid", "jsessionid", "aspsessionid", "sid", "connect.sid",
   "auth_token", "authtoken", "authorization", "x-auth-token"]

/-- Python `any(session_name in key.lower() for session_name in
session_names)`: the lowercased key contains some fragment as a
substring. -/
def keyMatches (key : String) : Bool :=
  session_names.any (fun s => listHasSub (lowerChars key) s.toList)

/-- The candidate dict returned by `find_session_token`.  The cookie branch
returns a dict with a `full_data` key holding the whole cookie record; the
storage branches return a dict without that key, modelled as
`full_data = none`. -/
structure TokenCandidate where
  type : String
  name : String
  value : String
  full_data : Option CookieRecord
deriving DecidableEq

/-- The cookie loop of `find_session_token` (lines 195-202): first matching
cookie wins, carrying its full record. -/
def searchCookies : List (String × CookieRecord) → Option TokenCandidate
  | [] => none
  | (cookie_name, cookie_data) :: rest =>
    if keyMatches cookie_name then
      some ⟨"cookie", cookie_name, cookie_data.value, some cookie_data⟩
    else searchCookies rest

/-- The localStorage / sessionStorage loops of `find_session_token`
(lines 205-220): first matching key wins, `kind` is the `type` string of
the returned dict, no `full_data` key. -/
def searchStorage (kind : String) : List (String × String) → Option TokenCandidate
  | [] => none
  | (key, value) :: rest =>
    if keyMatches key then some ⟨kind, key, value, none⟩
    else searchStorage kind rest

/-- `WebsiteLoginAutomation.find_session_token` (extractor.py lines
177-222): cookies first, then localStorage, then sessionStorage; missing
surfaces read through `tokens.get(surface, dict())`; `none` models the
Python `return None`. -/
def find_session_token (tokens : TokensDict) : Option TokenCandidate :=
  match searchCookies (tokens.cookies.getD []) with
  | some c => some c
  | none =>
    match searchStorage "localStorage" (tokens.localStorage.getD []) with
    | some c => some c
    | none => searchStorage "sessionStorage" (tokens.sessionStorage.getD [])

/-- JSON-compatible scalar values for the config document.  The claims only
exercise strings and numbers; the embedding keeps the value type closed
under the scalars the document can hold. -/
inductive JsonVal where
  | str : String → JsonVal
  | num : Int → JsonVal
  | bool : Bool → JsonVal
  | null : JsonVal
deriving DecidableEq

/-- The filesystem state `update_config_file` interacts with at its config
path: whether the parent directory exists, and the parsed JSON document at
the path (`none` when no file exists).  Malformed existing content raises
and is out of scope of the claims about valid or missing documents. -/
structure FileState where
  parentDirExists : Bool
  file : Option (List (String × JsonVal))
deriving DecidableEq

/-- `WebsiteLoginAutomation.update_config_file` (extractor.py lines
230-261) as a state transformer: `os.makedirs(dirname, exist_ok=True)`
makes the parent directory exist; the document is `json.load`ed if the
file exists, else started empty; `config[token_key] = token_value` is a
dict assignment; the whole document is written back. -/
def update_config_file (st : FileState) (token_value : String) (token_key : String) : FileState :=
  let config := st.file.getD []
  ⟨true, some (setKey config token_key (JsonVal.str token_value))⟩

/-- Python falsiness of an optional credential string: `None` and the empty
string are falsy (`if not self.username or not self.password`). -/
def pyFalsy : Option String → Bool
  | none => true
  | some s => s == ""

/-- The state built by `WebsiteLoginAutomation.__init__`. -/
structure WebsiteLoginAutomation where
  login_url : String
  headless : Bool
  username : String
  password : String
deriving DecidableEq

/-- Browser-side effects; `__init__` performs none, only
`login_and_get_tokens` launches a browser. -/
inductive BrowserEvent where
  | browserLaunch
deriving DecidableEq

/-- `WebsiteLoginAutomation.__init__` (extractor.py lines 8-22).  The
credentials come from `constants.py` (not part of the snapshot), modelled
as optional-string parameters: `none` is an unset credential.  The result
pairs the constructed object (or the raised `ValueError`, the
ConfigurationError of the design) with the list of browser events the
constructor performs — the body contains no Playwright call, so that list
is empty on every path. -/
def WebsiteLoginAutomation.init (login_url : String) (headless : Bool)
    (username password : Option String) :
    Except String WebsiteLoginAutomation × List BrowserEvent :=
  if pyFalsy username || pyFalsy password then
    (Except.error "Please set WEBSITE_USERNAME and WEBSITE_PASSWORD in constants.py file", [])
  else
    (Except.ok ⟨login_url, headless, username.getD "", password.getD ""⟩, [])

/-- `identify` as the specification words it: per surface, the first entry
whose lowercased key contains a fragment; surfaces tried in the fixed
order cookies, localStorage, sessionStorage. -/
def identifySpec (t : TokensDict) : Option TokenCandidate :=
  (((t.cookies.getD []).find? (fun e => keyMatches e.1)).map
      (fun e => ⟨"cookie", e.1, e.2.value, some e.2⟩)).orElse
    (fun _ =>
      (((t.localStorage.getD []).find? (fun e => keyMatches e.1)).map
          (fun e => ⟨"localStorage", e.1, e.2, none⟩)).orElse
        (fun _ =>
          ((t.sessionStorage.getD []).find? (fun e => keyMatches e.1)).map
            (fun e => ⟨"sessionStorage", e.1, e.2, none⟩)))
/-! Concrete inputs used by witnesses and the counterexample. -/

/-- A page whose meta-tag evaluation raises (and whose script-variable
evaluation would succeed). -/
def pageMetaFails : PageEnv := ⟨[], some [], some [], none, some []⟩

/-- A page whose localStorage evaluation raises. -/
def pageLocalFails : PageEnv := ⟨[], none, some [], some [], some []⟩

/-- Snapshot of the priority-ordering test of the design: both a cookie
and a localStorage key match. -/
def snapPriority : TokensDict :=
  ⟨some [("SID", ⟨"c1", "example.com", "/", none, none, none⟩)],
   some [("session_id", "l1")], some [], some [], some []⟩

/-- Snapshot of the no-match test of the design. -/
def snapNoMatch : TokensDict :=
  ⟨some [("foo", ⟨"bar", "example.com", "/", none, none, none⟩)],
   some [], some [], none, none⟩

/-- A snapshot with one matching cookie, for the candidate-shape witness. -/
def snapCookieOnly : TokensDict :=
  ⟨some [("PHPSESSID", ⟨"abc123", "example.com", "/", some 0, some true, some false⟩)],
   some [], some [], some [], some []⟩

/-- The candidate `find_session_token` returns on `snapCookieOnly`. -/
def candCookieOnly : TokenCandidate :=
  ⟨"cookie", "PHPSESSID", "abc123",
   some ⟨"abc123", "example.com", "/", some 0, some true, some false⟩⟩

/-- A fresh-path filesystem state: no parent directory, no document. -/
def freshState : FileState := ⟨false, none⟩

/-- An existing document holding only the key `other`, and the state
holding it. -/
def docOther : List (String × JsonVal) := [("other", JsonVal.num 1)]

def stateOther : FileState := ⟨true, some docOther⟩

/-! Helper lemmas shared by the claims about `find_session_token` and
`update_config_file`. -/

theorem searchCookies_eq_find (l : List (String × CookieRecord)) :
    searchCookies l = (l.find? (fun e => keyMatches e.1)).map
      (fun e => ⟨"cookie", e.1, e.2.value, some e.2⟩) := by
  induction l with
  | nil => rfl
  | cons hd tl ih =>
    obtain ⟨n, d⟩ := hd
    cases h : keyMatches n with
    | true => simp [searchCookies, List.find?, h]
    | false => simp [searchCookies, List.find?, h, ih]

theorem searchStorage_eq_find (kind : String) (l : List (String × String)) :
    searchStorage kind l = (l.find? (fun e => keyMatches e.1)).map
      (fun e => ⟨kind, e.1, e.2, none⟩) := by
  induction l with
  | nil => rfl
  | cons hd tl ih =>
    obtain ⟨k, v⟩ := hd
    cases h : keyMatches k with
    | true => simp [searchStorage, List.find?, h]
    | false => simp [searchStorage, List.find?, h, ih]

theorem getKey_setKey_self {α : Type} (d : List (String × α)) (k : String) (v : α) :
    getKey (setKey d k v) k = some v := by
  induction d with
  | nil => simp [setKey, getKey]
  | cons hd tl ih =>
    obtain ⟨k', v'⟩ := hd
    by_cases h : k' = k
    · simp [setKey, getKey, h]
    · simp [setKey, getKey, h, ih]

theorem getKey_setKey_ne {α : Type} (d : List (String × α)) (k k' : String) (v : α)
    (h : k' ≠ k) : getKey (setKey d k v) k' = getKey d k' := by
  have h' : k ≠ k' := Ne.symm h
  induction d with
  | nil => simp [setKey, getKey, h']
  | cons hd tl ih =>
    obtain ⟨k0, v0⟩ := hd
    by_cases h0 : k0 = k
    · subst h0
      simp [setKey, getKey, h']
    · simp [setKey, getKey, h0, ih]

theorem setKey_setKey_self {α : Type} (d : List (String × α)) (k : String) (v : α) :
    setKey (setKey d k v) k v = setKey d k v := by
  induction d with
  | nil => simp [setKey]
  | cons hd tl ih =>
    obtain ⟨k0, v0⟩ := hd
    by_cases h0 : k0 = k
    · simp [setKey, h0]
    · simp [setKey, h0, ih]
theorem searchCookies_shape (l : List (String × CookieRecord)) (c : TokenCandidate)
    (h : searchCookies l = some c) :
    ∃ n d, (n, d) ∈ l ∧ c = ⟨"cookie", n, d.value, some d⟩ := by
  induction l with
  | nil => simp [searchCookies] at h
  | cons hd tl ih =>
    obtain ⟨n, d⟩ := hd
    by_cases hk : keyMatches n
    · simp [searchCookies, hk] at h
      exact ⟨n, d, List.mem_cons_self _ _, h.symm⟩
    · simp only [searchCookies, hk, if_false] at h
      obtain ⟨n', d', hm, he⟩ := ih h
      exact ⟨n', d', List.mem_cons_of_mem _ hm, he⟩

theorem searchStorage_shape (kind : String) (l : List (String × String)) (c : TokenCandidate)
    (h : searchStorage kind l = some c) :
    ∃ k v, (k, v) ∈ l ∧ c = ⟨kind, k, v, none⟩ := by
  induction l with
  | nil => simp [searchStorage] at h
  | cons hd tl ih =>
    obtain ⟨k, v⟩ := hd
    by_cases hk : keyMatches k
    · simp [searchStorage, hk] at h
      exact ⟨k, v, List.mem_cons_self _ _, h.symm⟩
    · simp only [searchStorage, hk, if_false] at h
      obtain ⟨k', v', hm, he⟩ := ih h
      exact ⟨k', v', List.mem_cons_of_mem _ hm, he⟩

/-- Claim C2: `find_session_token` scans each searched surface in stored
order and returns the first entry whose lowercased key contains some
fragment of the fixed `session_names` list as a substring — it agrees
everywhere with the first-match composition `identifySpec`, and the cookie
name SESSIONID matches the fragment sessionid case-insensitively. -/
theorem find_session_token_first_match (t : TokensDict) :
    find_session_token t = identifySpec t ∧ keyMatches "SESSIONID" = true := by
  constructor
  · unfold find_session_token identifySpec
    rw [searchCookies_eq_find, searchStorage_eq_find, searchStorage_eq_find]
    cases (t.cookies.getD []).find? (fun e => keyMatches e.1) with
    | some e => rfl
    | none =>
      cases (t.localStorage.getD []).find? (fun e => keyMatches e.1) with
      | some e => rfl
      | none => rfl
  · decide
/-- Claim C3: whenever some cookie name matches a fragment, the returned
candidate comes from the cookies surface (type cookie), never from
localStorage or sessionStorage. -/
theorem find_session_token_cookie_priority (t : TokensDict)
    (h : (t.cookies.getD []).any (fun e => keyMatches e.1) = true) :
    ∃ c, find_session_token t = some c ∧ c.type = "cookie" := by
  obtain ⟨x, hx, hpx⟩ := List.any_eq_true.mp h
  have hf : ((t.cookies.getD []).find? (fun e => keyMatches e.1)).isSome := by
    rw [List.find?_isSome]
    exact ⟨x, hx, hpx⟩
  obtain ⟨e, he⟩ := Option.isSome_iff_exists.mp hf
  refine ⟨⟨"cookie", e.1, e.2.value, some e.2⟩, ?_, rfl⟩
  unfold find_session_token
  rw [searchCookies_eq_find, he]
  rfl

/-- Witness for C3 at the design's priority-ordering example: both the
cookie SID and the localStorage key session_id match, and the result is the
cookie candidate with value c1. -/
theorem find_session_token_cookie_priority_witness :
    ((snapPriority.cookies.getD []).any (fun e => keyMatches e.1) = true) ∧
    (∃ c, find_session_token snapPriority = some c ∧ c.type = "cookie") ∧
    find_session_token snapPriority =
      some ⟨"cookie", "SID", "c1", some ⟨"c1", "example.com", "/", none, none, none⟩⟩ :=
  ⟨by decide, find_session_token_cookie_priority snapPriority (by decide), by decide⟩

/-- Claim C6: when no key of cookies, localStorage or sessionStorage
matches any fragment, `find_session_token` returns `none`, whatever the
metaTags and scriptVariables fields hold — those surfaces are never
searched. -/
theorem find_session_token_no_match_none (t : TokensDict)
    (m s : Option (List (String × String)))
    (hc : (t.cookies.getD []).all (fun e => !keyMatches e.1) = true)
    (hl : (t.localStorage.getD []).all (fun e => !keyMatches e.1) = true)
    (hs : (t.sessionStorage.getD []).all (fun e => !keyMatches e.1) = true) :
    find_session_token ⟨t.cookies, t.localStorage, t.sessionStorage, m, s⟩ = none := by
  have fc : (t.cookies.getD []).find? (fun e => keyMatches e.1) = none := by
    rw [List.find?_eq_none]
    intro x hx
    have hb := List.all_eq_true.mp hc x hx
    simp only [Bool.not_eq_true'] at hb
    simp [hb]
  have fl : (t.localStorage.getD []).find? (fun e => keyMatches e.1) = none := by
    rw [List.find?_eq_none]
    intro x hx
    have hb := List.all_eq_true.mp hl x hx
    simp only [Bool.not_eq_true'] at hb
    simp [hb]
  have fs : (t.sessionStorage.getD []).find? (fun e => keyMatches e.1) = none := by
    rw [List.find?_eq_none]
    intro x hx
    have hb := List.all_eq_true.mp hs x hx
    simp only [Bool.not_eq_true'] at hb
    simp [hb]
  unfold find_session_token
  rw [searchCookies_eq_find, searchStorage_eq_find, searchStorage_eq_find]
  simp [fc, fl, fs]

/-- Witness for C6 at the design's no-match example: a single cookie foo,
empty storages, absent metaTags and scriptVariables keys. -/
theorem find_session_token_no_match_none_witness :
    ((snapNoMatch.cookies.getD []).all (fun e => !keyMatches e.1) = true) ∧
    ((snapNoMatch.localStorage.getD []).all (fun e => !keyMatches e.1) = true) ∧
    ((snapNoMatch.sessionStorage.getD []).all (fun e => !keyMatches e.1) = true) ∧
    find_session_token
      ⟨snapNoMatch.cookies, snapNoMatch.localStorage, snapNoMatch.sessionStorage,
       none, none⟩ = none :=
  ⟨by decide, by decide, by decide,
   find_session_token_no_match_none snapNoMatch none none
     (by decide) (by decide) (by decide)⟩

/-- Claim C9: `find_session_token` is total over partial snapshots — a
snapshot missing the cookies, localStorage or sessionStorage key is
handled exactly like one carrying that surface as an empty mapping, with
no error path. -/
theorem find_session_token_total_on_partial (t : TokensDict) :
    find_session_token
        ⟨none, t.localStorage, t.sessionStorage, t.metaTags, t.scriptVariables⟩ =
      find_session_token
        ⟨some [], t.localStorage, t.sessionStorage, t.metaTags, t.scriptVariables⟩ ∧
    find_session_token
        ⟨t.cookies, none, t.sessionStorage, t.metaTags, t.scriptVariables⟩ =
      find_session_token
        ⟨t.cookies, some [], t.sessionStorage, t.metaTags, t.scriptVariables⟩ ∧
    find_session_token
        ⟨t.cookies, t.localStorage, none, t.metaTags, t.scriptVariables⟩ =
      find_session_token
        ⟨t.cookies, t.localStorage, some [], t.metaTags, t.scriptVariables⟩ :=
  ⟨rfl, rfl, rfl⟩

/-- Claim C10: a returned candidate from cookies has type cookie and
carries the full original cookie record (whose value is the candidate
value); a candidate from either storage surface carries no record. -/
theorem find_session_token_candidate_shape (t : TokensDict) (c : TokenCandidate)
    (h : find_session_token t = some c) :
    (c.type = "cookie" ∨ c.type = "localStorage" ∨ c.type = "sessionStorage") ∧
    (c.type = "cookie" → ∃ d, c.full_data = some d ∧ c.value = d.value ∧
      (c.name, d) ∈ t.cookies.getD []) ∧
    (c.type ≠ "cookie" → c.full_data = none) := by
  unfold find_session_token at h
  cases hc : searchCookies (t.cookies.getD []) with
  | some c0 =>
    rw [hc] at h
    obtain rfl : c0 = c := Option.some.inj h
    obtain ⟨n, d, hm, rfl⟩ := searchCookies_shape _ _ hc
    exact ⟨Or.inl rfl, fun _ => ⟨d, rfl, rfl, hm⟩, fun hne => absurd rfl hne⟩
  | none =>
    rw [hc] at h
    cases hl : searchStorage "localStorage" (t.localStorage.getD []) with
    | some c0 =>
      rw [hl] at h
      obtain rfl : c0 = c := Option.some.inj h
      obtain ⟨k, v, hm, rfl⟩ := searchStorage_shape _ _ _ hl
      have hne : ("localStorage" : String) ≠ "cookie" := by decide
      exact ⟨Or.inr (Or.inl rfl), fun hck => absurd hck hne, fun _ => rfl⟩
    | none =>
      rw [hl] at h
      obtain ⟨k, v, hm, rfl⟩ := searchStorage_shape _ _ _ h
      have hne : ("sessionStorage" : String) ≠ "cookie" := by decide
      exact ⟨Or.inr (Or.inr rfl), fun hck => absurd hck hne, fun _ => rfl⟩

/-- Witness for C10 at a snapshot with one matching cookie PHPSESSID. -/
theorem find_session_token_candidate_shape_witness :
    (find_session_token snapCookieOnly = some candCookieOnly) ∧
    ((candCookieOnly.type = "cookie" ∨ candCookieOnly.type = "localStorage" ∨
        candCookieOnly.type = "sessionStorage") ∧
     (candCookieOnly.type = "cookie" → ∃ d, candCookieOnly.full_data = some d ∧
        candCookieOnly.value = d.value ∧
        (candCookieOnly.name, d) ∈ snapCookieOnly.cookies.getD []) ∧
     (candCookieOnly.type ≠ "cookie" → candCookieOnly.full_data = none)) :=
  ⟨by decide, find_session_token_candidate_shape snapCookieOnly candCookieOnly (by decide)⟩
/-- Claim C4: on an existing document, `update_config_file` sets the given
key to the given value and every other key keeps its prior value. -/
theorem update_config_file_sets_key_preserves_others (st : FileState)
    (d : List (String × JsonVal)) (key value : String)
    (h : st.file = some d) :
    getKey ((update_config_file st value key).file.getD []) key =
      some (JsonVal.str value) ∧
    ∀ k', k' ≠ key →
      getKey ((update_config_file st value key).file.getD []) k' = getKey d k' := by
  unfold update_config_file
  rw [h]
  exact ⟨getKey_setKey_self d key (JsonVal.str value),
         fun k' hk => getKey_setKey_ne d key k' (JsonVal.str value) hk⟩

/-- Witness for C4 at the design's merge example: starting from a document
holding other = 1, updating key token to v2 yields token bound to v2 with
other unchanged (and the document is exactly the two-entry mapping). -/
theorem update_config_file_sets_key_preserves_others_witness :
    (stateOther.file = some docOther) ∧ ("other" ≠ "token") ∧
    getKey ((update_config_file stateOther "v2" "token").file.getD []) "token" =
      some (JsonVal.str "v2") ∧
    getKey ((update_config_file stateOther "v2" "token").file.getD []) "other" =
      getKey docOther "other" ∧
    (update_config_file stateOther "v2" "token").file =
      some [("other", JsonVal.num 1), ("token", JsonVal.str "v2")] :=
  ⟨rfl, by decide,
   (update_config_file_sets_key_preserves_others stateOther docOther "token" "v2" rfl).1,
   (update_config_file_sets_key_preserves_others stateOther docOther "token" "v2" rfl).2
     "other" (by decide),
   by decide⟩

/-- Claim C5: `update_config_file` is idempotent — repeating a call with
the same key and value leaves the state identical to a single call — and a
later update at a different key preserves the value previously set at the
first key. -/
theorem update_config_file_idempotent (st : FileState) (key value k2 v2 : String)
    (h : k2 ≠ key) :
    update_config_file (update_config_file st value key) value key =
      update_config_file st value key ∧
    getKey ((update_config_file (update_config_file st value key) v2 k2).file.getD [])
      key = some (JsonVal.str value) := by
  constructor
  · unfold update_config_file
    simp [setKey_setKey_self]
  · unfold update_config_file
    simp only [Option.getD_some]
    rw [getKey_setKey_ne _ _ _ _ (Ne.symm h)]
    exact getKey_setKey_self _ key (JsonVal.str value)

/-- Witness for C5: set token to v1 twice from a fresh state (one state,
byte-for-byte), then set other to x and read token back unchanged. -/
theorem update_config_file_idempotent_witness :
    ("other" ≠ "token") ∧
    (update_config_file (update_config_file freshState "v1" "token") "v1" "token" =
       update_config_file freshState "v1" "token") ∧
    getKey ((update_config_file (update_config_file freshState "v1" "token")
        "x" "other").file.getD []) "token" = some (JsonVal.str "v1") :=
  ⟨by decide,
   (update_config_file_idempotent freshState "token" "v1" "other" "x" (by decide)).1,
   (update_config_file_idempotent freshState "token" "v1" "other" "x" (by decide)).2⟩

/-- Claim C7: `update_config_file` makes the parent directory exist on
every call; with no document at the path it starts from the empty
document, so on a fresh path with a missing parent directory it succeeds
and writes the one-entry document. -/
theorem update_config_file_creates_parent_and_doc (st : FileState)
    (value key : String) :
    (update_config_file st value key).parentDirExists = true ∧
    (st.file = none →
      update_config_file st value key = ⟨true, some [(key, JsonVal.str value)]⟩) := by
  constructor
  · rfl
  · intro h
    unfold update_config_file
    rw [h]
    rfl

/-- Witness for C7 at a fresh path whose parent directory is missing. -/
theorem update_config_file_creates_parent_and_doc_witness :
    (freshState.parentDirExists = false) ∧ (freshState.file = none) ∧
    (update_config_file freshState "v" "k").parentDirExists = true ∧
    update_config_file freshState "v" "k" = ⟨true, some [("k", JsonVal.str "v")]⟩ :=
  ⟨rfl, rfl,
   (update_config_file_creates_parent_and_doc freshState "v" "k").1,
   (update_config_file_creates_parent_and_doc freshState "v" "k").2 rfl⟩

/-- Claim C8: construction succeeds exactly when neither credential is
falsy (unset or empty) — otherwise the ValueError of the source (the
ConfigurationError of the design) is raised — and the constructor performs
no browser event on any path, so the failure happens before any browser
launch and success launches nothing. -/
theorem init_requires_credentials (login_url : String) (headless : Bool)
    (u p : Option String) :
    ((∃ a, (WebsiteLoginAutomation.init login_url headless u p).1 = Except.ok a) ↔
      (pyFalsy u = false ∧ pyFalsy p = false)) ∧
    (WebsiteLoginAutomation.init login_url headless u p).2 = [] := by
  unfold WebsiteLoginAutomation.init
  cases hu : pyFalsy u <;> cases hp : pyFalsy p <;> simp [hu, hp]
/-- Counterexample to claim C1 as stated: on a run whose meta-tag
evaluation raises, the returned snapshot lacks both the metaTags and the
scriptVariables keys — the failed surface does not degrade to an empty
mapping, it is absent. -/
theorem extract_all_tokens_absent_field_cex :
    pageMetaFails.metaTagsEval = none ∧
    (_extract_all_tokens pageMetaFails).metaTags = none ∧
    (_extract_all_tokens pageMetaFails).scriptVariables = none := by
  decide

/-- Claim C1 amended: no evaluation failure aborts the extraction (the
embedding is total) and cookies, localStorage and sessionStorage are
always present, the two storage surfaces degrading to an empty mapping
when their evaluation raises; but metaTags is present exactly when its
evaluation succeeds, and scriptVariables is present only when both the
meta-tag and the script-variable evaluations succeed — a failure in the
shared fourth step leaves those keys absent rather than empty. -/
theorem extract_all_tokens_field_presence (p : PageEnv) :
    (_extract_all_tokens p).cookies = some (buildCookiesMap p.contextCookies) ∧
    (_extract_all_tokens p).localStorage = some (p.localStorageEval.getD []) ∧
    (_extract_all_tokens p).sessionStorage = some (p.sessionStorageEval.getD []) ∧
    (_extract_all_tokens p).metaTags = p.metaTagsEval ∧
    (p.metaTagsEval = none → (_extract_all_tokens p).scriptVariables = none) ∧
    (p.metaTagsEval.isSome →
      (_extract_all_tokens p).scriptVariables = p.scriptVariablesEval) := by
  cases hm : p.metaTagsEval <;> cases hs : p.scriptVariablesEval <;>
    simp [_extract_all_tokens, hm, hs]

/-- Witness for the amended C1 at a run whose localStorage evaluation
raises while the fourth step succeeds: localStorage degrades to the empty
mapping and scriptVariables carries the evaluated mapping. -/
theorem extract_all_tokens_field_presence_witness :
    (pageLocalFails.metaTagsEval.isSome = true) ∧
    ((_extract_all_tokens pageLocalFails).localStorage = some []) ∧
    ((_extract_all_tokens pageLocalFails).scriptVariables =
      pageLocalFails.scriptVariablesEval) :=
  ⟨rfl, (extract_all_tokens_field_presence pageLocalFails).2.1,
   (extract_all_tokens_field_presence pageLocalFails).2.2.2.2.2 rfl⟩
